import Mathlib

/-!
Verification of the kata-containers device-classification and sandbox
device-client core: a shallow embedding of
`src/runtime/pkg/katautils/utils.go` (identifier validation, device-node
classification) and the `kata-runtime` device CLI commands (list, attach,
detach) together with proofs of the specified properties.

Machine integers are modelled as `Nat` with explicit masks where the Go
code itself masks; the filesystem and the shim network layer are modelled
as explicit oracles so that "which system calls happen" is visible in the
result.
-/

namespace KataSpec

/-! ### Linux file-mode constants (golang.org/x/sys/unix) -/

def S_IFMT : Nat := 0xF000
def S_IFBLK : Nat := 0x6000
def S_IFCHR : Nat := 0x2000
def S_IFIFO : Nat := 0x1000
def S_IFDIR : Nat := 0x4000
def S_IFREG : Nat := 0x8000
def S_IFLNK : Nat := 0xA000
def S_IFSOCK : Nat := 0xC000

/-! ### Canonical device-number decomposition (unix.Major / unix.Minor, linux)

`unix.Major`/`unix.Minor` on linux extract the major/minor components of a
packed 64-bit device number.  The masked shifts already fit in 32 bits, so
the Go `uint32` conversion truncates nothing. -/

def unix_Major (dev : Nat) : Nat :=
  ((dev &&& 0x00000000000fff00) >>> 8) ||| ((dev &&& 0xfffff00000000000) >>> 32)

def unix_Minor (dev : Nat) : Nat :=
  (dev &&& 0x00000000000000ff) ||| ((dev &&& 0x00000ffffff00000) >>> 12)

/-! ### Stat results and Go errors -/

/-- The fields of `unix.Stat_t` that the classifier reads.  `Mode` is a
`uint32`, `Rdev` a `uint64`, `Uid`/`Gid` `uint32`. -/
structure Stat_t where
  Mode : Nat
  Rdev : Nat
  Uid : Nat
  Gid : Nat
deriving DecidableEq, Repr

/-- `os.FileInfo.IsDir` on a stat result: the type bits equal `S_IFDIR`. -/
def Stat_t.isDir (st : Stat_t) : Bool := st.Mode &&& S_IFMT == S_IFDIR

/-- Go `error` values produced in this core: plain message errors
(`errors.New` / `fmt.Errorf` without `%w`), syscall errno errors, the
`*os.PathError` produced by `os.Stat`, and a `fmt.Errorf` with `%w`
wrapping an inner error behind a message prefix. -/
inductive GoError where
  | errorString : String → GoError
  | errno : String → GoError
  | pathError : String → String → String → GoError
  | wrapped : String → GoError → GoError
deriving DecidableEq, Repr

/-- The text of a Go error (`err.Error()`); an `*os.PathError` prints as
`op path: msg` and a `%w` wrap prints its prefix followed by the inner
error's text. -/
def GoError.message : GoError → String
  | GoError.errorString s => s
  | GoError.errno s => s
  | GoError.pathError op path msg => op ++ " " ++ path ++ ": " ++ msg
  | GoError.wrapped pre inner => pre ++ inner.message

/-- The filesystem metadata oracle.  `stat` follows symlinks (`os.Stat`);
`lstat` does not follow a trailing symlink (`unix.Lstat`).  Errors carry
the syscall error message.  POSIX guarantees that the empty path never
stats successfully (`ENOENT`), which both variants respect. -/
structure Filesystem where
  stat : String → Except String Stat_t
  lstat : String → Except String Stat_t
  stat_empty : ∀ st, stat "" ≠ Except.ok st
  lstat_empty : ∀ st, lstat "" ≠ Except.ok st

/-! ### The device descriptor (config.DeviceInfo, fields used here) -/

/-- The fields of `config.DeviceInfo` assigned by `DeviceFromPath`.
`Major`/`Minor` are `int64`, `UID`/`GID` `uint32`, `FileMode` an
`os.FileMode` (`uint32`). -/
structure DeviceInfo where
  ContainerPath : String
  DevType : String
  Major : Int
  Minor : Int
  UID : Nat
  GID : Nat
  FileMode : Nat
deriving DecidableEq, Repr

/-- The zero value of `config.DeviceInfo` (restricted to the fields above),
returned by `GetDeviceInfoByPath` for a directory. -/
def emptyDeviceInfo : DeviceInfo :=
  { ContainerPath := "", DevType := "", Major := 0, Minor := 0,
    UID := 0, GID := 0, FileMode := 0 }

def wildcardDevice : String := "a"
def blockDevice : String := "b"
def charDevice : String := "c"
def fifoDevice : String := "p"

/-- `DeviceFromPath` (utils.go): lstat the path (no symlink following),
decode the raw device number with the platform's canonical unpacking, map
the mode's type bits to a device-type tag, rejecting everything that is
not block/char/fifo, and assemble the descriptor with the type bits masked
out of the mode. -/
def DeviceFromPath (fs : Filesystem) (path : String) : Except GoError DeviceInfo :=
  match fs.lstat path with
  | Except.error e => Except.error (GoError.errno e)
  | Except.ok stat =>
    let devNumber : Nat := stat.Rdev
    let major : Nat := unix_Major devNumber
    let minor : Nat := unix_Minor devNumber
    let mode : Nat := stat.Mode
    let devTypeOpt : Option String :=
      if mode &&& S_IFMT == S_IFBLK then some blockDevice
      else if mode &&& S_IFMT == S_IFCHR then some charDevice
      else if mode &&& S_IFMT == S_IFIFO then some fifoDevice
      else none
    match devTypeOpt with
    | none => Except.error (GoError.errorString "not a device node")
    | some devType =>
      let fm : Nat := mode &&& (0xFFFFFFFF ^^^ S_IFMT)
      Except.ok
        { ContainerPath := path
          DevType := devType
          Major := Int.ofNat major
          Minor := Int.ofNat minor
          UID := stat.Uid
          GID := stat.Gid
          FileMode := fm }

/-- `GetDeviceInfoByPath` (utils.go): `os.Stat` the path (following
symlinks); a stat failure becomes `error stating device path: %w`; a
directory yields the empty descriptor with no error; anything else is
delegated to `DeviceFromPath`. -/
def GetDeviceInfoByPath (fs : Filesystem) (devPath : String) : Except GoError DeviceInfo :=
  match fs.stat devPath with
  | Except.error e =>
      Except.error (GoError.wrapped "error stating device path: "
        (GoError.pathError "stat" devPath e))
  | Except.ok stat =>
      if !stat.isDir then
        DeviceFromPath fs devPath
      else
        Except.ok emptyDeviceInfo

/-! ### Identifier validation -/

/-- The container/sandbox id pattern from utils.go. -/
def validCIDRegex : String := "^[a-zA-Z0-9][a-zA-Z0-9_.-]+$"

/-- Membership in the regex class `[a-zA-Z0-9]` (ASCII, case-sensitive). -/
def isCIDFirstChar (c : Char) : Bool :=
  (Char.ofNat 97 ≤ c && c ≤ Char.ofNat 122) ||
  (Char.ofNat 65 ≤ c && c ≤ Char.ofNat 90) ||
  (Char.ofNat 48 ≤ c && c ≤ Char.ofNat 57)

/-- Membership in the regex class `[a-zA-Z0-9_.-]` (`.` and `-` literal
inside a class). -/
def isCIDRestChar (c : Char) : Bool :=
  isCIDFirstChar c || c == Char.ofNat 95 || c == Char.ofNat 46 || c == Char.ofNat 45

/-- Whole-string matching of the anchored pattern
`^[a-zA-Z0-9][a-zA-Z0-9_.-]+$`: one head character from the first class
followed by one or more characters from the second. -/
def validCIDMatch (s : String) : Bool :=
  match s.data with
  | [] => false
  | c :: rest => isCIDFirstChar c && !rest.isEmpty && rest.all isCIDRestChar

/-- `VerifyContainerID` (utils.go): blank ids are rejected outright,
otherwise the id must match `validCIDRegex`. -/
def VerifyContainerID (id : String) : Except GoError Unit :=
  if id = "" then
    Except.error (GoError.errorString "ID cannot be blank")
  else if validCIDMatch id then
    Except.ok ()
  else
    Except.error (GoError.errorString
      ("invalid container/sandbox ID (should match \"" ++ validCIDRegex ++ "\")"))

/-! ### JSON payloads and the device intent request -/

/-- JSON values at the level of objects and strings, which is all the
device protocol produces (`encoding/json` marshalling is modelled at the
JSON-value level, byte layout aside). -/
inductive Json where
  | str : String → Json
  | obj : List (String × Json) → Json

/-- Modelled from the spec: `containerdshim.DeviceRequest` lives in the
containerd-shim-v2 package, which is not part of this excerpt; the spec
fixes its wire shape as the JSON body `{ "device_path": <string> }`.  It
pairs a device path with an implicit target sandbox. -/
structure DeviceRequest where
  DevicePath : String
deriving DecidableEq, Repr

/-- `json.Marshal` on a `DeviceRequest`: a one-field object keyed
`device_path`.  Marshalling a struct of one string field cannot fail, but
the call site checks the error, so the model keeps the `Except`. -/
def json_Marshal (r : DeviceRequest) : Except GoError Json :=
  Except.ok (Json.obj [("device_path", Json.str r.DevicePath)])

/-- `json.Unmarshal` of a JSON value into a `DeviceRequest`: accepts
exactly a one-field object keyed `device_path` holding a string. -/
def json_Unmarshal : Json → Except GoError DeviceRequest
  | Json.obj [("device_path", Json.str s)] => Except.ok { DevicePath := s }
  | _ => Except.error (GoError.errorString "cannot unmarshal into DeviceRequest")

/-- Modelled from the spec: `containerdshim.DeviceUrl` is defined in the
containerd-shim-v2 package, outside this excerpt; the spec describes it as
the sandbox's well-known device-management address.  No claim depends on
its value, only on all three commands sharing it. -/
def DeviceUrl : String := "/device"

/-! ### The shim client as a call-trace oracle -/

/-- The HTTP verb of a shimclient call (`DoGet` / `DoPut` / `DODelete`). -/
inductive ShimVerb where
  | get
  | put
  | delete
deriving DecidableEq, Repr

/-- One invocation of the shimclient network layer, recording every
argument the CLI actions pass: target sandbox, timeout, endpoint, and (for
mutating verbs) content type and serialized payload. -/
structure ShimCall where
  verb : ShimVerb
  sandboxID : String
  timeout : Nat
  url : String
  contentType : Option String
  body : Option Json

/-- The network oracle: the response (body or failure) the shim endpoint
gives to a call.  The actions below thread it explicitly and record each
call they make, so "no network call happened" is the trace being `[]`. -/
def ShimNet : Type := ShimCall → Except GoError String

/-- `listDeviceCommand.Action` (device CLI): validate the sandbox id, then
issue one `DoGet` with the default timeout against `DeviceUrl` and print
the raw body.  Returns the printed body on success, paired with the trace
of network calls made. -/
def listDeviceAction (net : ShimNet) (defaultTimeout : Nat) (sandboxID : String) :
    Except GoError String × List ShimCall :=
  match VerifyContainerID sandboxID with
  | Except.error e => (Except.error e, [])
  | Except.ok _ =>
    let call : ShimCall :=
      { verb := ShimVerb.get, sandboxID := sandboxID, timeout := defaultTimeout,
        url := DeviceUrl, contentType := none, body := none }
    (net call, [call])

/-- `attachDeviceCommand.Action` (device CLI): validate the sandbox id,
marshal `DeviceRequest{DevicePath: devPath}`, then issue one `DoPut` with
timeout `defaultTimeout*10`, content type `application/json` and the
encoded payload, paired with the trace of network calls made. -/
def attachDeviceAction (net : ShimNet) (defaultTimeout : Nat)
    (sandboxID devPath : String) : Except GoError Unit × List ShimCall :=
  match VerifyContainerID sandboxID with
  | Except.error e => (Except.error e, [])
  | Except.ok _ =>
    match json_Marshal { DevicePath := devPath } with
    | Except.error e => (Except.error e, [])
    | Except.ok encoded =>
      let call : ShimCall :=
        { verb := ShimVerb.put, sandboxID := sandboxID, timeout := defaultTimeout * 10,
          url := DeviceUrl, contentType := some "application/json", body := some encoded }
      (Except.map (fun _ => ()) (net call), [call])

/-- `detachDeviceCOmmand.Action` (device CLI): identical to attach except
that the verb is `DoDelete`. -/
def detachDeviceAction (net : ShimNet) (defaultTimeout : Nat)
    (sandboxID devPath : String) : Except GoError Unit × List ShimCall :=
  match VerifyContainerID sandboxID with
  | Except.error e => (Except.error e, [])
  | Except.ok _ =>
    match json_Marshal { DevicePath := devPath } with
    | Except.error e => (Except.error e, [])
    | Except.ok encoded =>
      let call : ShimCall :=
        { verb := ShimVerb.delete, sandboxID := sandboxID, timeout := defaultTimeout * 10,
          url := DeviceUrl, contentType := some "application/json", body := some encoded }
      (Except.map (fun _ => ()) (net call), [call])

/-! ### Concrete fixtures for witnesses -/

/-- A block-special node: device 8:17 (`dev = 0x0811` under the linux
packing), mode `rw-rw----`, owned by root:disk. -/
def statSda : Stat_t := { Mode := S_IFBLK ||| 0o660, Rdev := 0x0811, Uid := 0, Gid := 6 }

/-- A directory node. -/
def statDir : Stat_t := { Mode := S_IFDIR ||| 0o755, Rdev := 0, Uid := 0, Gid := 0 }

/-- A regular-file node. -/
def statReg : Stat_t := { Mode := S_IFREG ||| 0o644, Rdev := 0, Uid := 0, Gid := 0 }

/-- A symbolic-link node. -/
def statLnk : Stat_t := { Mode := S_IFLNK ||| 0o777, Rdev := 0, Uid := 0, Gid := 0 }

/-- A small concrete filesystem: a block device, a directory, a regular
file, and a symlink `/dev/link` whose target is the block device (so
`stat` sees the device, `lstat` sees the link). -/
def fsEx : Filesystem where
  stat := fun p =>
    if p = "/dev/sda" then Except.ok statSda
    else if p = "/dev" then Except.ok statDir
    else if p = "/etc/passwd" then Except.ok statReg
    else if p = "/dev/link" then Except.ok statSda
    else Except.error "no such file or directory"
  lstat := fun p =>
    if p = "/dev/sda" then Except.ok statSda
    else if p = "/dev" then Except.ok statDir
    else if p = "/etc/passwd" then Except.ok statReg
    else if p = "/dev/link" then Except.ok statLnk
    else Except.error "no such file or directory"
  stat_empty := by intro st h; simp at h
  lstat_empty := by intro st h; simp at h

/-- A network oracle that always answers with an empty successful body. -/
def netEx : ShimNet := fun _ => Except.ok ""

/-! ### Identifier validation (C2) -/

/-- Whole-string matching of the anchored pattern, characterised: a head
character in `[a-zA-Z0-9]` followed by a nonempty tail drawn from
`[a-zA-Z0-9_.-]`. -/
theorem validCIDMatch_iff (s : String) :
    validCIDMatch s = true ↔
      ∃ c cs, s.data = c :: cs ∧ isCIDFirstChar c = true ∧ cs ≠ [] ∧
        ∀ d ∈ cs, isCIDRestChar d = true := by
  unfold validCIDMatch
  cases h : s.data with
  | nil => simp
  | cons c cs =>
    simp only [Bool.and_eq_true, Bool.not_eq_true', List.all_eq_true]
    constructor
    · rintro ⟨⟨h1, h2⟩, h3⟩
      exact ⟨c, cs, rfl, h1, by simpa using h2, h3⟩
    · rintro ⟨c2, cs2, heq, h1, h2, h3⟩
      cases heq
      exact ⟨⟨h1, by simpa using h2⟩, h3⟩

/-- C2: `VerifyContainerID` succeeds exactly on strings fully matching the
anchored, case-sensitive pattern `^[a-zA-Z0-9][a-zA-Z0-9_.-]+$`; the empty
string is rejected with the blank-id error, every single-character string
and every string starting with a character outside `[a-zA-Z0-9]` is
rejected with the invalid-id error. -/
theorem verifyContainerID_spec (id : String) :
    (VerifyContainerID id = Except.ok () ↔
      ∃ c cs, id.data = c :: cs ∧ isCIDFirstChar c = true ∧ cs ≠ [] ∧
        ∀ d ∈ cs, isCIDRestChar d = true) ∧
    (id = "" →
      VerifyContainerID id = Except.error (GoError.errorString "ID cannot be blank")) ∧
    (id.length = 1 →
      VerifyContainerID id = Except.error (GoError.errorString
        ("invalid container/sandbox ID (should match \"" ++ validCIDRegex ++ "\")"))) ∧
    (∀ c cs, id.data = c :: cs → isCIDFirstChar c = false →
      VerifyContainerID id = Except.error (GoError.errorString
        ("invalid container/sandbox ID (should match \"" ++ validCIDRegex ++ "\")"))) := by
  refine ⟨?_, ?_, ?_, ?_⟩
  · unfold VerifyContainerID
    by_cases h0 : id = ""
    · subst h0
      simp only [if_pos rfl]
      constructor
      · intro h; cases h
      · rintro ⟨c, cs, hcs, -⟩
        simp [String.data] at hcs
    · rw [if_neg h0]
      by_cases hm : validCIDMatch id
      · rw [if_pos hm]
        simp only [true_iff]
        exact (validCIDMatch_iff id).mp hm
      · rw [if_neg hm]
        constructor
        · intro h; cases h
        · intro hex
          exact absurd ((validCIDMatch_iff id).mpr hex) hm
  · intro h0
    unfold VerifyContainerID
    rw [if_pos h0]
  · intro hlen
    have h0 : id ≠ "" := by
      intro h; rw [h] at hlen; simp [String.length] at hlen
    have hm : validCIDMatch id = false := by
      unfold validCIDMatch
      have : id.data.length = 1 := hlen
      cases hd : id.data with
      | nil => rfl
      | cons c cs =>
        rw [hd] at this
        simp at this
        subst this
        simp
    unfold VerifyContainerID
    rw [if_neg h0, if_neg (by simp [hm])]
  · intro c cs hd hc
    have h0 : id ≠ "" := by
      intro h; subst h; simp [String.data] at hd
    have hm : validCIDMatch id = false := by
      unfold validCIDMatch
      rw [hd]
      simp [hc]
    unfold VerifyContainerID
    rw [if_neg h0, if_neg (by simp [hm])]

/-- Witness for C2 at concrete inputs: `ab` is accepted, `""`, `a` and
`-ab` are rejected with the stated errors. -/
theorem verifyContainerID_spec_witness :
    VerifyContainerID "ab" = Except.ok () ∧
    VerifyContainerID "" = Except.error (GoError.errorString "ID cannot be blank") ∧
    VerifyContainerID "a" = Except.error (GoError.errorString
      ("invalid container/sandbox ID (should match \"" ++ validCIDRegex ++ "\")")) ∧
    VerifyContainerID "-ab" = Except.error (GoError.errorString
      ("invalid container/sandbox ID (should match \"" ++ validCIDRegex ++ "\")")) :=
  ⟨(verifyContainerID_spec "ab").1.mpr
      ⟨Char.ofNat 97, [Char.ofNat 98], by decide, by decide, by decide, by decide⟩,
   (verifyContainerID_spec "").2.1 rfl,
   (verifyContainerID_spec "a").2.2.1 (by decide),
   (verifyContainerID_spec "-ab").2.2.2 (Char.ofNat 45) [Char.ofNat 97, Char.ofNat 98]
      (by decide) (by decide)⟩

/-! ### Device classification (C1, C3, C4, C5, C10) -/

/-- String append is associative (via the underlying character lists). -/
theorem string_append_assoc (a b c : String) : a ++ b ++ c = a ++ (b ++ c) := by
  apply String.ext
  simp [String.data_append, List.append_assoc]

/-- C1: on a path whose lstat succeeds with block/char/fifo type bits,
`DeviceFromPath` returns a descriptor tagged `b`/`c`/`p` respectively,
with major/minor the canonical `unix.Major`/`unix.Minor` decomposition of
the raw device number, owner and group copied verbatim, the file mode
equal to the stat mode with the `S_IFMT` type bits masked out, and the
container path equal to the (necessarily nonempty) input path. -/
theorem deviceFromPath_deviceNode (fs : Filesystem) (p : String) (st : Stat_t)
    (hl : fs.lstat p = Except.ok st)
    (hdev : st.Mode &&& S_IFMT = S_IFBLK ∨ st.Mode &&& S_IFMT = S_IFCHR ∨
      st.Mode &&& S_IFMT = S_IFIFO) :
    ∃ d, DeviceFromPath fs p = Except.ok d ∧
      (st.Mode &&& S_IFMT = S_IFBLK → d.DevType = blockDevice) ∧
      (st.Mode &&& S_IFMT = S_IFCHR → d.DevType = charDevice) ∧
      (st.Mode &&& S_IFMT = S_IFIFO → d.DevType = fifoDevice) ∧
      d.Major = Int.ofNat (unix_Major st.Rdev) ∧
      d.Minor = Int.ofNat (unix_Minor st.Rdev) ∧
      d.UID = st.Uid ∧ d.GID = st.Gid ∧
      d.FileMode = st.Mode &&& (0xFFFFFFFF ^^^ S_IFMT) ∧
      d.ContainerPath = p ∧ p ≠ "" := by
  have hp : p ≠ "" := fun h => fs.lstat_empty st (h ▸ hl)
  rcases hdev with h | h | h
  · refine ⟨⟨p, blockDevice, Int.ofNat (unix_Major st.Rdev), Int.ofNat (unix_Minor st.Rdev),
        st.Uid, st.Gid, st.Mode &&& (0xFFFFFFFF ^^^ S_IFMT)⟩,
      ?_, fun _ => rfl,
      fun hc => absurd (h.symm.trans hc) (by decide),
      fun hc => absurd (h.symm.trans hc) (by decide),
      rfl, rfl, rfl, rfl, rfl, rfl, hp⟩
    simp [DeviceFromPath, hl, h, S_IFBLK, S_IFCHR, S_IFIFO]
  · refine ⟨⟨p, charDevice, Int.ofNat (unix_Major st.Rdev), Int.ofNat (unix_Minor st.Rdev),
        st.Uid, st.Gid, st.Mode &&& (0xFFFFFFFF ^^^ S_IFMT)⟩,
      ?_,
      fun hc => absurd (h.symm.trans hc) (by decide),
      fun _ => rfl,
      fun hc => absurd (h.symm.trans hc) (by decide),
      rfl, rfl, rfl, rfl, rfl, rfl, hp⟩
    simp [DeviceFromPath, hl, h, S_IFBLK, S_IFCHR, S_IFIFO]
  · refine ⟨⟨p, fifoDevice, Int.ofNat (unix_Major st.Rdev), Int.ofNat (unix_Minor st.Rdev),
        st.Uid, st.Gid, st.Mode &&& (0xFFFFFFFF ^^^ S_IFMT)⟩,
      ?_,
      fun hc => absurd (h.symm.trans hc) (by decide),
      fun hc => absurd (h.symm.trans hc) (by decide),
      fun _ => rfl,
      rfl, rfl, rfl, rfl, rfl, rfl, hp⟩
    simp [DeviceFromPath, hl, h, S_IFBLK, S_IFCHR, S_IFIFO]

/-- Witness for C1: the synthetic block node `/dev/sda` with raw device
number `0x0811` classifies as a block device, and the canonical
decomposition of `0x0811` is major 8, minor 17. -/
theorem deviceFromPath_deviceNode_witness :
    fsEx.lstat "/dev/sda" = Except.ok statSda ∧
    unix_Major statSda.Rdev = 8 ∧ unix_Minor statSda.Rdev = 17 ∧
    ∃ d, DeviceFromPath fsEx "/dev/sda" = Except.ok d ∧
      (statSda.Mode &&& S_IFMT = S_IFBLK → d.DevType = blockDevice) ∧
      (statSda.Mode &&& S_IFMT = S_IFCHR → d.DevType = charDevice) ∧
      (statSda.Mode &&& S_IFMT = S_IFIFO → d.DevType = fifoDevice) ∧
      d.Major = Int.ofNat (unix_Major statSda.Rdev) ∧
      d.Minor = Int.ofNat (unix_Minor statSda.Rdev) ∧
      d.UID = statSda.Uid ∧ d.GID = statSda.Gid ∧
      d.FileMode = statSda.Mode &&& (0xFFFFFFFF ^^^ S_IFMT) ∧
      d.ContainerPath = "/dev/sda" ∧ "/dev/sda" ≠ "" :=
  ⟨rfl, by decide, by decide,
    deviceFromPath_deviceNode fsEx "/dev/sda" statSda rfl (Or.inl (by decide))⟩

/-- C3: a path whose (symlink-following) stat is a directory yields the
empty descriptor and no error. -/
theorem getDeviceInfoByPath_dir (fs : Filesystem) (p : String) (st : Stat_t)
    (hs : fs.stat p = Except.ok st) (hdir : st.isDir = true) :
    GetDeviceInfoByPath fs p = Except.ok emptyDeviceInfo := by
  simp [GetDeviceInfoByPath, hs, hdir]

/-- Witness for C3: the directory `/dev` yields the empty descriptor. -/
theorem getDeviceInfoByPath_dir_witness :
    fsEx.stat "/dev" = Except.ok statDir ∧ statDir.isDir = true ∧
    GetDeviceInfoByPath fsEx "/dev" = Except.ok emptyDeviceInfo :=
  ⟨rfl, by decide, getDeviceInfoByPath_dir fsEx "/dev" statDir rfl (by decide)⟩

/-- C4: a path whose lstat type bits are none of block/char/fifo is
rejected by `DeviceFromPath` with the `not a device node` error, and
`GetDeviceInfoByPath` propagates that error whenever its own stat result
is not a directory. -/
theorem deviceFromPath_notADeviceNode (fs : Filesystem) (p : String) (st : Stat_t)
    (hl : fs.lstat p = Except.ok st)
    (hb : st.Mode &&& S_IFMT ≠ S_IFBLK)
    (hc : st.Mode &&& S_IFMT ≠ S_IFCHR)
    (hf : st.Mode &&& S_IFMT ≠ S_IFIFO) :
    DeviceFromPath fs p = Except.error (GoError.errorString "not a device node") ∧
    ∀ st2, fs.stat p = Except.ok st2 → st2.isDir = false →
      GetDeviceInfoByPath fs p = Except.error (GoError.errorString "not a device node") := by
  have h1 : DeviceFromPath fs p = Except.error (GoError.errorString "not a device node") := by
    simp [DeviceFromPath, hl, hb, hc, hf]
  refine ⟨h1, fun st2 hs2 hnd => ?_⟩
  simp [GetDeviceInfoByPath, hs2, hnd, h1]

/-- Witness for C4: the regular file `/etc/passwd` is rejected as not a
device node by both entry points. -/
theorem deviceFromPath_notADeviceNode_witness :
    fsEx.lstat "/etc/passwd" = Except.ok statReg ∧
    statReg.Mode &&& S_IFMT ≠ S_IFBLK ∧
    (DeviceFromPath fsEx "/etc/passwd" =
      Except.error (GoError.errorString "not a device node") ∧
    ∀ st2, fsEx.stat "/etc/passwd" = Except.ok st2 → st2.isDir = false →
      GetDeviceInfoByPath fsEx "/etc/passwd" =
        Except.error (GoError.errorString "not a device node")) :=
  ⟨rfl, by decide,
    deviceFromPath_notADeviceNode fsEx "/etc/passwd" statReg rfl
      (by decide) (by decide) (by decide)⟩

/-- C5: when the stat of the path fails, `GetDeviceInfoByPath` fails with
the `error stating device path` error wrapping the underlying path error,
and the error text contains the path. -/
theorem getDeviceInfoByPath_statFails (fs : Filesystem) (p : String) (e : String)
    (hs : fs.stat p = Except.error e) :
    GetDeviceInfoByPath fs p = Except.error
      (GoError.wrapped "error stating device path: " (GoError.pathError "stat" p e)) ∧
    ∃ pre post,
      (GoError.wrapped "error stating device path: "
        (GoError.pathError "stat" p e)).message = pre ++ p ++ post := by
  refine ⟨by simp [GetDeviceInfoByPath, hs],
    "error stating device path: stat ", ": " ++ e, ?_⟩
  show "error stating device path: " ++ ("stat" ++ " " ++ p ++ ": " ++ e) = _
  rw [string_append_assoc "error stating device path: stat " p (": " ++ e)]
  rw [string_append_assoc ("stat" ++ " " ++ p) ": " e]
  rw [string_append_assoc ("stat" ++ " ") p (": " ++ e)]
  rw [← string_append_assoc "error stating device path: " ("stat" ++ " ") (p ++ (": " ++ e))]
  rw [← string_append_assoc "error stating device path: stat " p (": " ++ e)]
  rfl

/-- Witness for C5: the missing path `/no/such/path` produces the wrapped
stat error, whose text mentions the path. -/
theorem getDeviceInfoByPath_statFails_witness :
    fsEx.stat "/no/such/path" = Except.error "no such file or directory" ∧
    (GetDeviceInfoByPath fsEx "/no/such/path" = Except.error
      (GoError.wrapped "error stating device path: "
        (GoError.pathError "stat" "/no/such/path" "no such file or directory")) ∧
    ∃ pre post,
      (GoError.wrapped "error stating device path: "
        (GoError.pathError "stat" "/no/such/path" "no such file or directory")).message =
        pre ++ "/no/such/path" ++ post) :=
  ⟨rfl, getDeviceInfoByPath_statFails fsEx "/no/such/path" "no such file or directory" rfl⟩

/-- C10: a symlink to a block or character device is rejected: the
directory check follows the link (seeing a non-directory), so the node
classifier runs on the link itself without following it and rejects the
symlink type bits with `not a device node`. -/
theorem getDeviceInfoByPath_symlinkToDevice (fs : Filesystem) (p : String) (st lst : Stat_t)
    (hs : fs.stat p = Except.ok st)
    (htarget : st.Mode &&& S_IFMT = S_IFBLK ∨ st.Mode &&& S_IFMT = S_IFCHR)
    (hl : fs.lstat p = Except.ok lst)
    (hlnk : lst.Mode &&& S_IFMT = S_IFLNK) :
    GetDeviceInfoByPath fs p = Except.error (GoError.errorString "not a device node") := by
  have hnd : st.isDir = false := by
    unfold Stat_t.isDir
    rcases htarget with h | h <;> simp [h, S_IFBLK, S_IFCHR, S_IFDIR]
  have hdfp : DeviceFromPath fs p =
      Except.error (GoError.errorString "not a device node") := by
    have hb : lst.Mode &&& S_IFMT ≠ S_IFBLK := by rw [hlnk]; decide
    have hc : lst.Mode &&& S_IFMT ≠ S_IFCHR := by rw [hlnk]; decide
    have hf : lst.Mode &&& S_IFMT ≠ S_IFIFO := by rw [hlnk]; decide
    simp [DeviceFromPath, hl, hb, hc, hf]
  simp [GetDeviceInfoByPath, hs, hnd, hdfp]

/-- Witness for C10: `/dev/link`, a symlink to the block device
`/dev/sda`, is rejected with `not a device node`. -/
theorem getDeviceInfoByPath_symlinkToDevice_witness :
    fsEx.stat "/dev/link" = Except.ok statSda ∧
    fsEx.lstat "/dev/link" = Except.ok statLnk ∧
    statLnk.Mode &&& S_IFMT = S_IFLNK ∧
    GetDeviceInfoByPath fsEx "/dev/link" =
      Except.error (GoError.errorString "not a device node") :=
  ⟨rfl, rfl, by decide,
    getDeviceInfoByPath_symlinkToDevice fsEx "/dev/link" statSda statLnk rfl
      (Or.inl (by decide)) rfl (by decide)⟩

/-! ### Sandbox device client (C6, C7, C8, C9) -/

/-- C6: an identifier that fails validation makes each of list, attach and
detach return the validation error with an empty network-call trace: the
shim network layer is never invoked. -/
theorem invalidID_noNetworkCall (net : ShimNet) (t : Nat) (id devPath : String) (e : GoError)
    (hv : VerifyContainerID id = Except.error e) :
    listDeviceAction net t id = (Except.error e, []) ∧
    attachDeviceAction net t id devPath = (Except.error e, []) ∧
    detachDeviceAction net t id devPath = (Except.error e, []) := by
  unfold listDeviceAction attachDeviceAction detachDeviceAction
  rw [hv]
  exact ⟨rfl, rfl, rfl⟩

/-- Witness for C6: the empty sandbox id is rejected by all three
operations with no network call. -/
theorem invalidID_noNetworkCall_witness :
    VerifyContainerID "" = Except.error (GoError.errorString "ID cannot be blank") ∧
    (listDeviceAction netEx 3 "" =
      (Except.error (GoError.errorString "ID cannot be blank"), []) ∧
    attachDeviceAction netEx 3 "" "/dev/sdb" =
      (Except.error (GoError.errorString "ID cannot be blank"), []) ∧
    detachDeviceAction netEx 3 "" "/dev/sdb" =
      (Except.error (GoError.errorString "ID cannot be blank"), [])) :=
  ⟨rfl, invalidID_noNetworkCall netEx 3 "" "/dev/sdb"
    (GoError.errorString "ID cannot be blank") rfl⟩

/-- C7: for a valid identifier, the single network call of attach and of
detach carries timeout `defaultTimeout * 10`, exactly ten times the
default timeout carried by the single network call of list. -/
theorem attachDetachTimeout_tenfoldOfList (net : ShimNet) (t : Nat) (id devPath : String)
    (hv : VerifyContainerID id = Except.ok ()) :
    (attachDeviceAction net t id devPath).2.map ShimCall.timeout = [t * 10] ∧
    (detachDeviceAction net t id devPath).2.map ShimCall.timeout = [t * 10] ∧
    (listDeviceAction net t id).2.map ShimCall.timeout = [t] := by
  unfold attachDeviceAction detachDeviceAction listDeviceAction
  rw [hv]
  exact ⟨rfl, rfl, rfl⟩

/-- Witness for C7 at sandbox id `abc-1`, device `/dev/sdb`, default
timeout 3. -/
theorem attachDetachTimeout_tenfoldOfList_witness :
    VerifyContainerID "abc-1" = Except.ok () ∧
    ((attachDeviceAction netEx 3 "abc-1" "/dev/sdb").2.map ShimCall.timeout = [3 * 10] ∧
    (detachDeviceAction netEx 3 "abc-1" "/dev/sdb").2.map ShimCall.timeout = [3 * 10] ∧
    (listDeviceAction netEx 3 "abc-1").2.map ShimCall.timeout = [3]) :=
  ⟨rfl, attachDetachTimeout_tenfoldOfList netEx 3 "abc-1" "/dev/sdb" rfl⟩

/-- C8: marshalling the device request for `/dev/null` yields exactly the
JSON object with the single field `device_path` holding `/dev/null`, and
for every device-path string, marshalling followed by unmarshalling is the
identity. -/
theorem deviceRequest_json_roundtrip :
    json_Marshal { DevicePath := "/dev/null" } =
      Except.ok (Json.obj [("device_path", Json.str "/dev/null")]) ∧
    ∀ (s : String) (j : Json), json_Marshal { DevicePath := s } = Except.ok j →
      json_Unmarshal j = Except.ok { DevicePath := s } := by
  refine ⟨rfl, fun s j h => ?_⟩
  cases h
  rfl

/-- Witness for C8: decoding the marshalled `/dev/null` request yields it
back. -/
theorem deviceRequest_json_roundtrip_witness :
    json_Unmarshal (Json.obj [("device_path", Json.str "/dev/null")]) =
      Except.ok { DevicePath := "/dev/null" } :=
  deviceRequest_json_roundtrip.2 "/dev/null"
    (Json.obj [("device_path", Json.str "/dev/null")]) rfl

/-- C9: for a valid identifier, attach and detach each make one network
call built from the same serialized payload, the same extended timeout,
the same endpoint and the same content type, differing only in the verb:
PUT for attach, DELETE for detach. -/
theorem detachSymmetricToAttach (net : ShimNet) (t : Nat) (id devPath : String)
    (hv : VerifyContainerID id = Except.ok ()) :
    ∃ c : ShimCall,
      (attachDeviceAction net t id devPath).2 = [{ c with verb := ShimVerb.put }] ∧
      (detachDeviceAction net t id devPath).2 = [{ c with verb := ShimVerb.delete }] ∧
      c.sandboxID = id ∧ c.timeout = t * 10 ∧ c.url = DeviceUrl ∧
      c.contentType = some "application/json" ∧
      c.body = some (Json.obj [("device_path", Json.str devPath)]) := by
  refine ⟨⟨ShimVerb.put, id, t * 10, DeviceUrl, some "application/json",
      some (Json.obj [("device_path", Json.str devPath)])⟩, ?_, ?_, rfl, rfl, rfl, rfl, rfl⟩
  · unfold attachDeviceAction
    rw [hv]
    rfl
  · unfold detachDeviceAction
    rw [hv]
    rfl

/-- Witness for C9 at sandbox id `abc-1`, device `/dev/sdb`, default
timeout 3. -/
theorem detachSymmetricToAttach_witness :
    VerifyContainerID "abc-1" = Except.ok () ∧
    ∃ c : ShimCall,
      (attachDeviceAction netEx 3 "abc-1" "/dev/sdb").2 = [{ c with verb := ShimVerb.put }] ∧
      (detachDeviceAction netEx 3 "abc-1" "/dev/sdb").2 = [{ c with verb := ShimVerb.delete }] ∧
      c.sandboxID = "abc-1" ∧ c.timeout = 3 * 10 ∧ c.url = DeviceUrl ∧
      c.contentType = some "application/json" ∧
      c.body = some (Json.obj [("device_path", Json.str "/dev/sdb")]) :=
  ⟨rfl, detachSymmetricToAttach netEx 3 "abc-1" "/dev/sdb" rfl⟩

end KataSpec
